import Mathlib

/-!
Verification of the kamco crawler/summariser repository.

Shallow embedding of the Python sources:
  - src/crawler/utils/pdf_processor.py   (PDFProcessor)
  - src/crawler/utils/azure_llm_client.py (AzureLLMClient)
  - src/crawler/spiders/crawling_spider.py (KamcoInvestSpider)
  - src/crawler/main.py                  (KamcoPDFSummarizer)
  - src/config.py                        (Config)

Text is modelled as `List Char`.  Python character classes (`\s`, `\w`, `\d`)
are modelled over their ASCII meaning; all concrete inputs used in theorems
are ASCII, where the two notions agree.
-/

namespace Crawler

/-- Convert a string literal to the `List Char` text representation. -/
def s2l (s : String) : List Char := s.data

/-- Python `\s` (ASCII part): the whitespace characters recognised by `str.strip`
and the `re` module on ASCII text. -/
def pyIsSpace (c : Char) : Bool :=
  c = ' ' || c = '\t' || c = '\n' || c = '\x0d' || c = '\x0b' || c = '\x0c'

/-- Python `\w` (ASCII part): letters, digits and underscore. -/
def pyIsWordChar (c : Char) : Bool :=
  c.isAlpha || c.isDigit || c = '_'

/-- Python `str.lower` (ASCII part). -/
def lowerL (l : List Char) : List Char := l.map Char.toLower

/-- Python `a.startswith(b)` on text. -/
def startsWithL (p : List Char) (l : List Char) : Bool :=
  match p, l with
  | [], _ => true
  | _ :: _, [] => false
  | a :: p, b :: l => a == b && startsWithL p l

/-- Python `needle in hay` (substring containment) on text. -/
def containsSub (needle : List Char) : List Char → Bool
  | [] => startsWithL needle []
  | b :: rest => startsWithL needle (b :: rest) || containsSub needle rest

/-- Python `a.endswith(b)` on text. -/
def endsWithL (l ext : List Char) : Bool :=
  l.drop (l.length - ext.length) == ext

/-- Python `str.strip()` with no argument: remove leading and trailing whitespace. -/
def pyStrip (l : List Char) : List Char :=
  ((l.dropWhile pyIsSpace).reverse.dropWhile pyIsSpace).reverse

/-- Python `str.rfind(c)`: highest index at which `c` occurs, `-1` if absent. -/
def pyRfind (c : Char) : List Char → Int
  | [] => -1
  | a :: rest =>
    let r := pyRfind c rest
    if r ≥ 0 then r + 1
    else if a = c then 0 else -1

/-! ## PDFProcessor (src/crawler/utils/pdf_processor.py) -/

/-- The three-character truncation marker `"..."` appended by
`PDFProcessor.limit_text_length`. -/
def ellipsisMarker : List Char := s2l "..."

/-- Embeds `PDFProcessor.limit_text_length` (pdf_processor.py lines 63-85),
with `maxChars` standing for `self.max_chars`.

Python compares the integer `last_sentence_end` against the float
`self.max_chars * 0.8`; this is modelled as the exact rational comparison
`5 * last_sentence_end > 4 * maxChars`.  The two can differ only when the
float product rounds across the integer `last_sentence_end`; none of the
theorems below sits on that boundary (for the concrete inputs used,
`maxChars * 0.8` is exact in double precision). -/
def limit_text_length (maxChars : Nat) (text : List Char) : List Char :=
  if text.length ≤ maxChars then text
  else
    let truncated := text.take maxChars
    let lastPeriod := pyRfind '.' truncated
    let lastExclamation := pyRfind '!' truncated
    let lastQuestion := pyRfind '?' truncated
    let lastSentenceEnd := max (max lastPeriod lastExclamation) lastQuestion
    if 5 * lastSentenceEnd > 4 * (maxChars : Int) then
      truncated.take (lastSentenceEnd + 1).toNat
    else
      let lastSpace := pyRfind ' ' truncated
      if lastSpace > 0 then
        truncated.take lastSpace.toNat ++ ellipsisMarker
      else
        truncated ++ ellipsisMarker

/-- Auxiliary for `re.sub(r'\s+', rep, text)`: replace every maximal run of
whitespace by the single character `rep`.  The flag records whether the
previous character was part of a whitespace run. -/
def collapseWsAux (rep : Char) : Bool → List Char → List Char
  | _, [] => []
  | prevWs, c :: rest =>
    if pyIsSpace c then
      if prevWs then collapseWsAux rep true rest
      else rep :: collapseWsAux rep true rest
    else c :: collapseWsAux rep false rest

/-- Embeds `re.sub(r'\s+', ' ', text)` (pdf_processor.py line 70). -/
def collapseWs (l : List Char) : List Char := collapseWsAux ' ' false l

/-- Embeds `re.sub(r'[^\w\s\-.,;:!?()%$€£¥₹]', '', text)` (pdf_processor.py line 73):
keep only word characters, whitespace and the listed punctuation. -/
def removeSpecial (l : List Char) : List Char :=
  l.filter (fun c =>
    pyIsWordChar c || pyIsSpace c ||
    c = '-' || c = '.' || c = ',' || c = ';' || c = ':' || c = '!' || c = '?' ||
    c = '(' || c = ')' || c = '%' || c = '$' || c = '€' || c = '£' || c = '¥' || c = '₹')

/-- Embeds `re.sub(r'\b\d{1,3}\b(?=\s*$)', '', text)` (pdf_processor.py line 76):
remove a trailing run of one to three digits (followed only by whitespace)
whose left neighbour is a non-word character or the start of the text.
A longer trailing digit run has no word boundary inside it, so the pattern
cannot match and the text is unchanged. -/
def removeTrailingPageNum (l : List Char) : List Char :=
  let rev := l.reverse
  let ws := rev.takeWhile pyIsSpace
  let rest := rev.dropWhile pyIsSpace
  let digits := rest.takeWhile Char.isDigit
  let beforeDigits := rest.dropWhile Char.isDigit
  if 1 ≤ digits.length && digits.length ≤ 3 &&
      (beforeDigits.isEmpty || !(pyIsWordChar (beforeDigits.headD ' '))) then
    (ws ++ beforeDigits).reverse
  else l

/-- Embeds `re.sub(r'^page\s+\d+', '', text, flags=re.IGNORECASE)`
(pdf_processor.py line 77): drop a leading "page", one or more whitespace
characters and one or more digits. -/
def removeLeadingPage (l : List Char) : List Char :=
  match l with
  | p :: a :: g :: e :: rest =>
    if p.toLower = 'p' && a.toLower = 'a' && g.toLower = 'g' && e.toLower = 'e' then
      let wsRun := rest.takeWhile pyIsSpace
      let afterWs := rest.dropWhile pyIsSpace
      let digitRun := afterWs.takeWhile Char.isDigit
      let afterDigits := afterWs.dropWhile Char.isDigit
      if 1 ≤ wsRun.length && 1 ≤ digitRun.length then afterDigits else l
    else l
  | _ => l

/-- Embeds `PDFProcessor.clean_text` (pdf_processor.py lines 44-61). -/
def clean_text (text : List Char) : List Char :=
  if text.isEmpty then []
  else pyStrip (removeLeadingPage (removeTrailingPageNum (removeSpecial (collapseWs text))))

/-- What `PyPDF2.PdfReader` hands `extract_first_page_text`: the file may be
missing, reading may raise, or it yields a list of pages, each modelled by
the text its `extract_text()` returns. -/
inductive PdfReadResult where
  | missing
  | readError
  | pages (ps : List (List Char))
deriving DecidableEq

/-- Embeds `PDFProcessor.extract_first_page_text` (pdf_processor.py lines
12-42), with `maxChars` standing for `self.max_chars`.  `missing` covers the
`not pdf_path.exists()` early return, `readError` the `except` clause. -/
def extract_first_page_text (maxChars : Nat) (pdf : PdfReadResult) : Option (List Char) :=
  match pdf with
  | .missing => none
  | .readError => none
  | .pages ps =>
    match ps with
    | [] => none
    | first :: _ =>
      if first.isEmpty || (pyStrip first).isEmpty then none
      else some (limit_text_length maxChars (clean_text first))

/-! ## Config (src/config.py) -/

/-- Value of `Config.MAX_RETRIES` (config.py line 27). -/
def MAX_RETRIES : Nat := 3

/-- Value of `Config.RETRY_DELAY` (config.py line 28). -/
def RETRY_DELAY : Nat := 1

/-- Value of `Config.MAX_CHARS_PER_PAGE` (config.py line 25), the max-characters
budget handed to `PDFProcessor` by `KamcoPDFSummarizer.__init__`. -/
def MAX_CHARS_PER_PAGE : Nat := 4000

/-- The names bound in the class body of `Config` (config.py lines 7-28 and
the `validate_config` method).  Python resolves `self.config.<name>` against
these; any other name raises `AttributeError`. -/
def configClassAttrs : List String :=
  ["AZURE_OPENAI_API_KEY", "AZURE_OPENAI_ENDPOINT", "AZURE_OPENAI_API_VERSION",
   "AZURE_OPENAI_DEPLOYMENT_NAME", "AZURE_OPENAI_MODEL_NAME",
   "BASE_DIR", "PDF_FOLDER", "SUMMARIES_FOLDER", "LOGS_FOLDER",
   "MAX_PAGES_TO_PROCESS", "MAX_CHARS_PER_PAGE", "MAX_RETRIES", "RETRY_DELAY",
   "validate_config"]

/-- Whether Python attribute lookup on a `Config` instance succeeds. -/
def configHasAttr (name : String) : Bool := configClassAttrs.contains name

/-- A Python exception relevant to the embedded code. -/
inductive PyExn where
  | attributeError (name : String)
deriving DecidableEq

/-- Python attribute access `self.config.<name>`: succeeds iff the class body
of `Config` binds `name`, otherwise raises `AttributeError`.  `env` supplies
the (string-or-None) values of the environment-derived attributes; it is only
consulted for names the class actually binds. -/
def config_getattr (env : String → Option String) (name : String) :
    Except PyExn (Option String) :=
  if configHasAttr name then .ok (env name) else .error (.attributeError name)

/-! ## AzureLLMClient (src/crawler/utils/azure_llm_client.py) -/

/-- The dict `{'Summary': ...}` built by `AzureLLMClient._parse_response`. -/
structure SummaryDict where
  Summary : String
deriving DecidableEq

/-- Python `str.strip()` on a `String`. -/
def pyStripStr (s : String) : String := (pyStrip s.data).asString

/-- Python truthiness of a str-or-None value. -/
def pyTruthyStrOpt : Option String → Bool
  | none => false
  | some s => !s.isEmpty

/-- Outcome of one `self.client.chat.completions.create(...)` call inside
`AzureLLMClient._make_api_call` (azure_llm_client.py lines 77-111). -/
inductive ApiOutcome where
  | success (content : String)  -- response with truthy choices and message
  | emptyResponse               -- falsy choices or message: return None at line 93
  | rateLimit                   -- openai.RateLimitError
  | timeout                     -- openai.APITimeoutError
  | otherError                  -- any other exception
deriving DecidableEq

/-- Observable result of `_make_api_call`: the returned value, the sleep
durations performed (in order), and the number of attempts made. -/
structure ApiCallResult where
  result : Option String
  sleeps : List Nat
  attempts : Nat
deriving DecidableEq

/-- The `for attempt in range(MAX_RETRIES)` loop of `_make_api_call`
(azure_llm_client.py lines 73-113).  `o attempt` is the outcome of the call
on that (0-based) attempt; `remaining` counts the loop iterations left.
On a rate limit the sleep is `RETRY_DELAY * 2 ** attempt`, on a timeout or
other exception it is `RETRY_DELAY`, in each case only when
`attempt < MAX_RETRIES - 1`.  Exhausting the loop returns `None` (line 113). -/
def make_api_call_go (o : Nat → ApiOutcome) (maxRetries retryDelay : Nat) :
    Nat → Nat → ApiCallResult
  | _, 0 => ⟨none, [], 0⟩
  | attempt, remaining + 1 =>
    match o attempt with
    | .success c => ⟨some c, [], 1⟩
    | .emptyResponse => ⟨none, [], 1⟩
    | .rateLimit =>
      let rest := make_api_call_go o maxRetries retryDelay (attempt + 1) remaining
      ⟨rest.result,
        (if attempt < maxRetries - 1 then [retryDelay * 2 ^ attempt] else []) ++ rest.sleeps,
        rest.attempts + 1⟩
    | .timeout =>
      let rest := make_api_call_go o maxRetries retryDelay (attempt + 1) remaining
      ⟨rest.result,
        (if attempt < maxRetries - 1 then [retryDelay] else []) ++ rest.sleeps,
        rest.attempts + 1⟩
    | .otherError =>
      let rest := make_api_call_go o maxRetries retryDelay (attempt + 1) remaining
      ⟨rest.result,
        (if attempt < maxRetries - 1 then [retryDelay] else []) ++ rest.sleeps,
        rest.attempts + 1⟩

/-- Embeds `AzureLLMClient._make_api_call` for one deployment. -/
def make_api_call (o : Nat → ApiOutcome) (maxRetries retryDelay : Nat) : ApiCallResult :=
  make_api_call_go o maxRetries retryDelay 0 maxRetries

/-- Embeds `AzureLLMClient.summarize_text` (azure_llm_client.py lines 22-48),
instrumented with the list of deployment names passed to `_make_api_call`.

`apiCall dep` is the value `self._make_api_call(prompt, dep)` returns.
Line 35 reads `self.config.AZURE_OPENAI_DEPLOYMENT_NAME_35`; Python
evaluates that attribute access (after the short-circuiting
`response is None`) via `config_getattr`, and an `AttributeError` there is
caught by the `except Exception` clause at line 46, which returns `None`.
On a non-None response, `_parse_response` wraps the stripped text in a
`SummaryDict` (line 117). -/
def summarize_text (env : String → Option String) (text : List Char)
    (apiCall : Option String → Option String) : Option SummaryDict × List (Option String) :=
  if text.isEmpty || (pyStrip text).isEmpty then (none, [])
  else
    let primary := env "AZURE_OPENAI_DEPLOYMENT_NAME"
    match apiCall primary with
    | some r => (some ⟨pyStripStr r⟩, [primary])
    | none =>
      match config_getattr env "AZURE_OPENAI_DEPLOYMENT_NAME_35" with
      | .error _ => (none, [primary])
      | .ok backup =>
        if pyTruthyStrOpt backup then
          match apiCall backup with
          | some r => (some ⟨pyStripStr r⟩, [primary, backup])
          | none => (none, [primary, backup])
        else (none, [primary])

/-! ## KamcoInvestSpider (src/crawler/spiders/crawling_spider.py) -/

/-- An observable effect of a spider callback: a `scrapy.Request` yielded, a
dict item yielded (`success` records the item's `success` key when present),
or a file written to disk. -/
inductive Action where
  | request (url : String)
  | item (success : Option Bool)
  | fileWrite (path : String) (size : Nat)
deriving DecidableEq

/-- Embeds `urllib.parse.urljoin(base, href)`, modelled exactly for absolute `href`
(containing `"://"`), which is the only shape used in the theorems below;
relative resolution is simplified to concatenation. -/
def urljoin (base href : String) : String :=
  if containsSub (s2l "://") (s2l href) then href else base ++ href

/-- An element or anchor as seen by `parse_page`: its string content, whether
it is itself an `<a>` node, its `@href` and `@title`, and the result of the
compound sibling/ancestor href xpath of line 71. -/
structure PageElement where
  text : String
  isAnchor : Bool
  href : Option String
  title : Option String
  nearbyHref : Option String
deriving DecidableEq

/-- What the listing-page response gives `parse_page`: the element lists the
two xpath queries of lines 37 and 40 return, and the fallback
`research/` anchor hrefs of line 87. -/
structure PageResponse where
  url : String
  textElements : List PageElement
  kuwaitLinks : List PageElement
  researchLinks : List String
deriving DecidableEq

/-- The filter of crawling_spider.py lines 47-50: lower-cased element text
contains "kuwait" and "- en" or "- eng". -/
def pageTargetFilterElem (e : PageElement) : Bool :=
  let t := lowerL (s2l e.text)
  containsSub (s2l "kuwait") t &&
    (containsSub (s2l "- en") t || containsSub (s2l "- eng") t)

/-- The `full_text` of crawling_spider.py line 57: lower-cased text, href and
title joined by spaces. -/
def pageFullText (e : PageElement) : List Char :=
  lowerL (s2l e.text) ++ [' '] ++ lowerL (s2l (e.href.getD "")) ++ [' '] ++
    lowerL (s2l (e.title.getD ""))

/-- The filter of crawling_spider.py lines 52-59 on `full_text`. -/
def pageTargetFilterLink (e : PageElement) : Bool :=
  let t := pageFullText e
  containsSub (s2l "kuwait") t &&
    (containsSub (s2l "- en") t || containsSub (s2l "- eng") t)

/-- Embeds `KamcoInvestSpider.parse_page` (crawling_spider.py lines 29-95):
early return when `self.downloaded` is set; otherwise pick the first target
element and request its link, or fan out to at most five fallback
`research/` links. -/
def parse_page (downloaded : Bool) (r : PageResponse) : List Action :=
  if downloaded then []
  else
    let targets := r.textElements.filter pageTargetFilterElem ++
      r.kuwaitLinks.filter pageTargetFilterLink
    match targets with
    | first :: _ =>
      match (if first.isAnchor then first.href else first.nearbyHref) with
      | some l => [.request (urljoin r.url l)]
      | none => []
    | [] =>
      (r.researchLinks.take 5).map (fun l => .request (urljoin r.url l))

/-- What the report-page response gives `parse_item`: the anchor href lists
returned by the four xpath queries of crawling_spider.py lines 117-123 (in
that order), the alternative document links of line 153, and the page
title. -/
structure ItemResponse where
  url : String
  pdfHrefAnchors : List String
  downloadAnchors : List String
  downloadHrefAnchors : List String
  btnAnchors : List String
  docLinks : List String
  title : String
deriving DecidableEq

/-- The candidates accumulated by the four `pdf_links.extend(...)` calls, in
collection order. -/
def collected_pdf_links (r : ItemResponse) : List String :=
  r.pdfHrefAnchors ++ r.downloadAnchors ++ r.downloadHrefAnchors ++ r.btnAnchors

/-- The comprehension filter of crawling_spider.py line 125:
`link and not link.startswith('#') and link.strip()`. -/
def link_keep (link : String) : Bool :=
  !(s2l link).isEmpty && !(startsWithL (s2l "#") (s2l link)) &&
    !(pyStrip (s2l link)).isEmpty

/-- Embeds `'kuwait' in link.lower()` (crawling_spider.py line 130). -/
def kuwaitLink (l : String) : Bool := containsSub (s2l "kuwait") (lowerL (s2l l))

/-- The selection of crawling_spider.py lines 129-137 applied to the
deduplicated list: prefer the first Kuwait link, else the first element. -/
def select_pdf_url (pdf_links : List String) : Option String :=
  match pdf_links with
  | [] => none
  | first :: _ =>
    match pdf_links.filter kuwaitLink with
    | k :: _ => some k
    | [] => some first

/-- Predicate: `pl` is a possible value of Python's `list(set(orig))`: a list of the
distinct elements of `orig` in some (hash-dependent, unspecified) order,
i.e. a permutation of `orig.dedup`. -/
def validSetList (orig pl : List String) : Prop := pl.Perm orig.dedup

/-- Embeds `KamcoInvestSpider.parse_item` (crawling_spider.py lines 108-173).
`setList` models Python's `list(set(...))` on line 125 (its iteration order
is a run-time artefact; theorems constrain it through `validSetList`).
The yielded `scrapy.Request` is recorded by its absolute URL; the summary
dict of line 167 is the trailing item. -/
def parse_item (setList : List String → List String) (downloaded : Bool)
    (r : ItemResponse) : List Action :=
  if downloaded then []
  else
    let pdf_links := setList ((collected_pdf_links r).filter link_keep)
    let requests :=
      match select_pdf_url pdf_links with
      | some u => [Action.request (urljoin r.url u)]
      | none =>
        match r.docLinks with
        | d :: _ => [Action.request (urljoin r.url d)]
        | [] => []
    requests ++ [Action.item none]

/-- What the fetched resource gives `save_pdf`: the Content-Type header, the
`%PDF` magic-byte check on the body, the body size, the `.pdf` anchor hrefs
found in the body (line 229), and the filename travelling in `meta`. -/
structure SaveResponse where
  url : String
  contentType : Option String
  bodyStartsPdfMagic : Bool
  bodySize : Nat
  pdfAnchors : List String
  filename : String
deriving DecidableEq

/-- Embeds `KamcoInvestSpider.save_pdf` (crawling_spider.py lines 198-254).
Returns the new `self.downloaded` flag and the actions performed: write the
body and yield the success item when the response looks like a PDF; else
follow the first `.pdf` anchor with a new `save_pdf` request, or yield the
non-PDF error item when there is none. -/
def save_pdf (downloaded : Bool) (r : SaveResponse) : Bool × List Action :=
  if downloaded then (downloaded, [])
  else
    let ct := lowerL (s2l (r.contentType.getD ""))
    if containsSub (s2l "pdf") ct || r.bodyStartsPdfMagic then
      (true, [.fileWrite ("kamco_reports/" ++ r.filename) r.bodySize, .item (some true)])
    else
      match r.pdfAnchors with
      | href :: _ => (false, [.request (urljoin r.url href)])
      | [] => (false, [.item (some false)])

/-- Number of `scrapy.Request`s among the actions. -/
def countRedirects (acts : List Action) : Nat :=
  acts.countP (fun a => match a with | .request _ => true | _ => false)

/-- The URL of the first yielded request, if any. -/
def firstRedirect (acts : List Action) : Option String :=
  acts.findSome? (fun a => match a with | .request u => some u | _ => none)

/-- One download attempt: the engine fetches a URL from `web`, runs
`save_pdf` on it and follows the redirect request it may yield, threading
the `downloaded` flag.  `fuel` bounds the model's recursion only; the code
itself imposes no bound on the chain. -/
def download_run (web : String → Option SaveResponse) :
    Nat → Bool → String → List Action
  | 0, _, _ => []
  | fuel + 1, downloaded, u =>
    match web u with
    | none => []
    | some resp =>
      let p := save_pdf downloaded resp
      p.2 ++ (match firstRedirect p.2 with
              | some u2 => download_run web fuel p.1 u2
              | none => [])

/-- The `".pdf"` extension tested by `generate_filename`. -/
def pdfExtL : List Char := s2l ".pdf"

/-- Embeds `KamcoInvestSpider.generate_filename` (crawling_spider.py lines
175-196).  `basename` is `os.path.basename(urlparse(url).path)` (left
abstract: the theorem quantifies over every value it can take), `hasResponse`
whether a response object was passed, `title` the page title text and
`timestamp` the formatted `datetime.now()` string. -/
def generate_filename (basename : List Char) (hasResponse : Bool)
    (title : List Char) (timestamp : List Char) : List Char :=
  let filename :=
    if basename.isEmpty || !(endsWithL basename pdfExtL) then
      if hasResponse then
        let t := pyStrip title
        if !t.isEmpty && containsSub (s2l "kuwait") (lowerL t) then
          let c1 := t.filter (fun c => pyIsWordChar c || pyIsSpace c || c = '-')
          let c2 := collapseWsAux '_' false c1
          c2.take 50 ++ pdfExtL
        else s2l "Kuwait_Report_" ++ timestamp ++ pdfExtL
      else s2l "Latest_Kuwait_Report.pdf"
    else basename
  if endsWithL filename pdfExtL then filename else filename ++ pdfExtL

/-! ## KamcoPDFSummarizer (src/crawler/main.py) -/

/-- The metadata dict `PDFProcessor.get_pdf_metadata` returns: either a full
dict carrying a `pages` entry, or (when reading raised) the fallback
`{'filename': ..., 'error': ...}` dict, which has no `pages` key. -/
inductive MetaResult where
  | ok (pages : Nat)
  | errorDict (e : String)
deriving DecidableEq

/-- The dict built by `KamcoPDFSummarizer.process_pdf`, with absent keys
modelled as `none`. -/
structure ProcResult where
  filename : Option String
  success : Bool
  error : Option String
  metadata : Option MetaResult
  summary : Option SummaryDict
  summary_file : Option String
deriving DecidableEq

/-- Embeds `KamcoPDFSummarizer.process_pdf` (main.py lines 48-94).
`extracted` is what `extract_first_page_text` returned and
`summarizeResult` what `summarize_text` returned.  When metadata reading
failed, the log line's `result['metadata']['pages']` raises `KeyError`,
caught by the `except` at line 90 after `result['metadata']` was already
assigned. -/
def process_pdf (filename : String) (meta : MetaResult)
    (extracted : Option (List Char)) (summarizeResult : Option SummaryDict) :
    ProcResult :=
  let base : ProcResult := ⟨some filename, false, none, none, none, none⟩
  match meta with
  | .errorDict e =>
    { base with metadata := some (.errorDict e), error := some "KeyError: pages" }
  | .ok pages =>
    let r1 := { base with metadata := some (.ok pages) }
    match extracted with
    | none => { r1 with error := some "No text extracted from first page" }
    | some t =>
      if t.isEmpty then { r1 with error := some "No text extracted from first page" }
      else
        match summarizeResult with
        | none => { r1 with error := some "Failed to generate summary" }
        | some s => { r1 with summary := some s, success := true }

/-- Embeds `KamcoPDFSummarizer.run` (main.py lines 113-144) together with the
persistence it performs.  `findResult` is the outcome of locating the PDF
(lines 118-123; an exception produces the fatal dict of lines 140-144),
`saveResult` the outcome of `save_summary` (only consulted on the success
path).  The second component lists the summary files durably written. -/
def run_summarizer (findResult : Except String String) (meta : MetaResult)
    (extracted : Option (List Char)) (summarizeResult : Option SummaryDict)
    (saveResult : Except String String) : ProcResult × List String :=
  match findResult with
  | .error e => (⟨none, false, some e, none, none, none⟩, [])
  | .ok pdfName =>
    let result := process_pdf pdfName meta extracted summarizeResult
    if result.success then
      match saveResult with
      | .ok path => ({ result with summary_file := some path }, [path])
      | .error e => (⟨none, false, some e, none, none, none⟩, [])
    else (result, [])

/-! ## Concrete scenarios used by counterexamples and witnesses -/

/-- A report page carrying two non-Kuwait `.pdf` anchors, in this collection
order. -/
def c6Response : ItemResponse :=
  ⟨"http://r/page", ["http://x/b.pdf", "http://x/a.pdf"], [], [], [], [], "t"⟩

/-- A possible iteration order of Python's `list(set(...))` on the two
candidates of `c6Response`: the reverse of collection order (string hash
order is unspecified and seed-dependent). -/
def c6Enum : List String → List String :=
  fun _ => ["http://x/a.pdf", "http://x/b.pdf"]

/-- A report page with no anchors at all. -/
def c6EmptyResponse : ItemResponse := ⟨"http://r/none", [], [], [], [], [], "t"⟩

/-- A three-node web in which every resource is HTML (not a PDF) and the
first two each carry a `.pdf` anchor to the next: fetching the first URL
produces a chain of two redirect-following retries before the non-PDF error
item. -/
def c5Web : String → Option SaveResponse := fun u =>
  if u = "http://a" then
    some ⟨"http://a", some "text/html", false, 10, ["http://b/x.pdf"], "f.pdf"⟩
  else if u = "http://b/x.pdf" then
    some ⟨"http://b/x.pdf", some "text/html", false, 10, ["http://c/y.pdf"], "f.pdf"⟩
  else if u = "http://c/y.pdf" then
    some ⟨"http://c/y.pdf", some "text/html", false, 10, [], "f.pdf"⟩
  else none

/-! ## Helper lemmas -/

theorem ellipsisMarker_length : ellipsisMarker.length = 3 := rfl

theorem pyRfind_lt_length (c : Char) (l : List Char) : pyRfind c l < (l.length : Int) := by
  induction l with
  | nil => simp [pyRfind]
  | cons a rest ih =>
    simp only [pyRfind, List.length_cons]
    split
    · push_cast
      omega
    · split <;> push_cast <;> omega

/-- Every branch of `limit_text_length` returns at most `maxChars` plus the
three marker characters. -/
theorem limit_length_le (maxChars : Nat) (text : List Char) :
    (limit_text_length maxChars text).length ≤ maxChars + 3 := by
  simp only [limit_text_length]
  split
  · omega
  · split
    · simp only [List.length_take]
      omega
    · split <;>
        simp only [List.length_append, List.length_take, ellipsisMarker_length] <;>
        omega

/-! ## C2 -/

/-- C2 (counterexample): the input `"abcdef"` is longer than the limit 5, yet
`limit_text_length` returns `"abcde..."`, which is longer than the input.
So the claim's clause that the result is never longer than the input fails. -/
theorem c2_counterexample :
    (s2l "abcdef").length > 5 ∧
    (limit_text_length 5 (s2l "abcdef")).length > (s2l "abcdef").length := by
  decide

/-- C2 (amended): for every text longer than the limit, `limit_text_length`
returns at most `maxChars + 3` characters (3 = length of the `"..."` marker)
and never raises (it is a total function); the result is never longer than
the input whenever the input has at least `maxChars + 3` characters. -/
theorem c2_limit_bounds (maxChars : Nat) (text : List Char)
    (h : text.length > maxChars) :
    (limit_text_length maxChars text).length ≤ maxChars + 3 ∧
    (maxChars + 3 ≤ text.length →
      (limit_text_length maxChars text).length ≤ text.length) :=
  ⟨limit_length_le maxChars text,
   fun h2 => le_trans (limit_length_le maxChars text) h2⟩

/-- C2 witness: the amended statement evaluated at limit 5 and the 8-character
input `"abcdefgh"`. -/
theorem c2_witness :
    (limit_text_length 5 (s2l "abcdefgh")).length ≤ 5 + 3 ∧
    (5 + 3 ≤ (s2l "abcdefgh").length →
      (limit_text_length 5 (s2l "abcdefgh")).length ≤ (s2l "abcdefgh").length) :=
  c2_limit_bounds 5 (s2l "abcdefgh") (by decide)

/-! ## C4 -/

/-- C4 (counterexample): with limit 10, `"abcdefghi jk"` maps to
`"abcdefghi..."` whose second application maps to `"abcdefghi."`, so applying
`limit_text_length` twice differs from applying it once. -/
theorem c4_counterexample :
    limit_text_length 10 (limit_text_length 10 (s2l "abcdefghi jk")) ≠
      limit_text_length 10 (s2l "abcdefghi jk") := by
  decide

/-- C4 (amended): applying `limit_text_length` twice equals applying it once
whenever the first application's output is within the budget
(`length ≤ maxChars`); the unguarded equation fails when the first
application overshoots the budget by appending the marker. -/
theorem c4_idempotent_within_budget (maxChars : Nat) (text : List Char)
    (h : (limit_text_length maxChars text).length ≤ maxChars) :
    limit_text_length maxChars (limit_text_length maxChars text) =
      limit_text_length maxChars text := by
  conv_lhs => rw [limit_text_length]
  simp [h]

/-- C4 witness: the amended statement evaluated at limit 10 and input
`"short"`, whose image has length within the budget. -/
theorem c4_witness :
    limit_text_length 10 (limit_text_length 10 (s2l "short")) =
      limit_text_length 10 (s2l "short") :=
  c4_idempotent_within_budget 10 (s2l "short") (by decide)

/-! ## C3 -/

theorem takeWhile_replicate_neg {α} (p : α → Bool) (a : α) (h : p a = false) :
    ∀ n, (List.replicate n a).takeWhile p = []
  | 0 => rfl
  | n + 1 => by simp [List.replicate_succ, List.takeWhile_cons, h]

theorem dropWhile_replicate_neg {α} (p : α → Bool) (a : α) (h : p a = false) :
    ∀ n, (List.replicate n a).dropWhile p = List.replicate n a
  | 0 => rfl
  | n + 1 => by simp [List.replicate_succ, List.dropWhile_cons, h]

theorem collapseWsAux_no_space (rep : Char) :
    ∀ (l : List Char) (b : Bool), (∀ c ∈ l, pyIsSpace c = false) →
      collapseWsAux rep b l = l
  | [], _, _ => rfl
  | c :: rest, b, h => by
    have hc : pyIsSpace c = false := h c (by simp)
    simp only [collapseWsAux, hc, Bool.false_eq_true, if_false]
    exact congrArg (c :: ·) (collapseWsAux_no_space rep rest false
      (fun a ha => h a (by simp [ha])))

theorem pyRfind_replicate_of_ne (c a : Char) (h : a ≠ c) :
    ∀ n, pyRfind c (List.replicate n a) = -1
  | 0 => rfl
  | n + 1 => by
    simp only [List.replicate_succ, pyRfind, pyRfind_replicate_of_ne c a h n]
    simp [h]

theorem pyStrip_replicate_a (m : Nat) :
    pyStrip (List.replicate m 'a') = List.replicate m 'a' := by
  unfold pyStrip
  rw [dropWhile_replicate_neg _ _ (by decide), List.reverse_replicate,
    dropWhile_replicate_neg _ _ (by decide), List.reverse_replicate]

theorem removeTrailingPageNum_replicate_a (m : Nat) :
    removeTrailingPageNum (List.replicate m 'a') = List.replicate m 'a' := by
  simp only [removeTrailingPageNum, List.reverse_replicate,
    takeWhile_replicate_neg _ _ (by decide : pyIsSpace 'a' = false),
    dropWhile_replicate_neg _ _ (by decide : pyIsSpace 'a' = false),
    takeWhile_replicate_neg _ _ (by decide : Char.isDigit 'a' = false)]
  simp

theorem removeLeadingPage_replicate_a (n : Nat) :
    removeLeadingPage (List.replicate (n + 4) 'a') = List.replicate (n + 4) 'a' := by
  have h : List.replicate (n + 4) 'a' = 'a' :: 'a' :: 'a' :: 'a' :: List.replicate n 'a' := by
    simp [List.replicate_succ]
  rw [h]
  simp [removeLeadingPage]

theorem clean_text_replicate_a (n : Nat) :
    clean_text (List.replicate (n + 4) 'a') = List.replicate (n + 4) 'a' := by
  have hnospace : ∀ c ∈ List.replicate (n + 4) 'a', pyIsSpace c = false := by
    intro c hc
    rw [List.eq_of_mem_replicate hc]
    decide
  have hcons : List.replicate (n + 4) 'a' = 'a' :: 'a' :: 'a' :: 'a' :: List.replicate n 'a' := by
    simp [List.replicate_succ]
  have hne : (List.replicate (n + 4) 'a').isEmpty = false := by
    rw [hcons]; rfl
  simp only [clean_text, hne, Bool.false_eq_true, if_false]
  rw [collapseWs, collapseWsAux_no_space _ _ _ hnospace,
    removeSpecial, List.filter_eq_self.mpr
      (fun c hc => by rw [List.eq_of_mem_replicate hc]; decide),
    removeTrailingPageNum_replicate_a, removeLeadingPage_replicate_a,
    pyStrip_replicate_a]

theorem limit_replicate_4001 :
    limit_text_length 4000 (List.replicate 4001 'a') =
      List.replicate 4000 'a' ++ ellipsisMarker := by
  simp only [limit_text_length, List.length_replicate]
  rw [if_neg (by norm_num), List.take_replicate]
  norm_num
  rw [pyRfind_replicate_of_ne '.' 'a' (by decide),
    pyRfind_replicate_of_ne '!' 'a' (by decide),
    pyRfind_replicate_of_ne '?' 'a' (by decide),
    pyRfind_replicate_of_ne ' ' 'a' (by decide)]
  norm_num

/-- C3 (counterexample): a first page whose raw text is 4001 `'a'`s is
cleaned to itself, and `limit_text_length` then returns 4003 characters —
more than the configured `MAX_CHARS_PER_PAGE = 4000` budget.  So the claim's
bound `length ≤ max-characters` fails on the code. -/
theorem c3_counterexample :
    (extract_first_page_text MAX_CHARS_PER_PAGE
        (.pages [List.replicate 4001 'a'])).map List.length = some 4003 ∧
      4003 > MAX_CHARS_PER_PAGE := by
  refine ⟨?_, by decide⟩
  have h4 : (4001 : Nat) = 3997 + 4 := by norm_num
  have hclean : clean_text (List.replicate 4001 'a') = List.replicate 4001 'a' := by
    rw [h4]
    exact clean_text_replicate_a 3997
  have hstrip : pyStrip (List.replicate 4001 'a') = List.replicate 4001 'a' :=
    pyStrip_replicate_a 4001
  have hne : (List.replicate 4001 'a').isEmpty = false := by
    rw [show (4001 : Nat) = 4000 + 1 from rfl, List.replicate_succ]; rfl
  simp only [extract_first_page_text, MAX_CHARS_PER_PAGE, hstrip, hne,
    Bool.or_self, Bool.false_eq_true, if_false]
  rw [hclean, limit_replicate_4001]
  simp only [Option.map_some', List.length_append, List.length_replicate,
    ellipsisMarker_length]

/-- C3 (amended): whenever `extract_first_page_text` succeeds, the returned
text has length at most the configured max-characters budget plus the
3-character truncation marker, and it is derived deterministically from the
raw first-page text alone (the remaining pages are irrelevant). -/
theorem c3_extract_bounds :
    (∀ (maxChars : Nat) (pdf : PdfReadResult) (s : List Char),
        extract_first_page_text maxChars pdf = some s → s.length ≤ maxChars + 3) ∧
    (∀ (maxChars : Nat) (raw : List Char) (rest rest2 : List (List Char)),
        extract_first_page_text maxChars (.pages (raw :: rest)) =
          extract_first_page_text maxChars (.pages (raw :: rest2))) := by
  constructor
  · intro maxChars pdf s h
    cases pdf with
    | missing => simp [extract_first_page_text] at h
    | readError => simp [extract_first_page_text] at h
    | pages ps =>
      cases ps with
      | nil => simp [extract_first_page_text] at h
      | cons first rest =>
        simp only [extract_first_page_text] at h
        split at h
        · simp at h
        · rw [Option.some_inj] at h
          rw [← h]
          exact limit_length_le maxChars (clean_text first)
  · intro maxChars raw rest rest2
    rfl

/-- C3 witness: the bound of the amended statement evaluated at budget 10 on
a concrete one-page PDF. -/
theorem c3_witness :
    (s2l "hello...").length ≤ 10 + 3 :=
  c3_extract_bounds.1 10 (.pages [s2l "  hello world this is long  "])
    (s2l "hello...") (by decide)

/-! ## C1 -/

/-- C1 (code defect): `Config` binds no attribute named
`AZURE_OPENAI_DEPLOYMENT_NAME_35`, so when the primary deployment's retry
loop yields `None`, the attribute access at azure_llm_client.py line 35
raises `AttributeError`, the `except Exception` clause returns `None`, and
the backup deployment is never called — even with the backup environment
variable set and a backup `_make_api_call` that would succeed on its first
attempt.  The call log shows only the primary deployment was tried. -/
theorem c1_backup_never_tried :
    configHasAttr "AZURE_OPENAI_DEPLOYMENT_NAME_35" = false ∧
    (fun d => if d = some "gpt-35-turbo" then some "BACKUP SUMMARY" else none)
        (some "gpt-35-turbo") = some "BACKUP SUMMARY" ∧
    summarize_text
        (fun n => if n = "AZURE_OPENAI_DEPLOYMENT_NAME" then some "gpt-4"
                  else if n = "AZURE_OPENAI_DEPLOYMENT_NAME_35" then some "gpt-35-turbo"
                  else none)
        (s2l "hello")
        (fun d => if d = some "gpt-35-turbo" then some "BACKUP SUMMARY" else none)
      = (none, [some "gpt-4"]) := by
  decide

/-! ## C8 -/

theorem make_api_call_go_attempts_le (o : Nat → ApiOutcome) (mr d : Nat) :
    ∀ (r a : Nat), (make_api_call_go o mr d a r).attempts ≤ r
  | 0, _ => Nat.le_refl 0
  | r + 1, a => by
    have ih := make_api_call_go_attempts_le o mr d r (a + 1)
    simp only [make_api_call_go]
    cases o a <;> simp <;> omega

/-- C8: the `_make_api_call` loop makes at most `MAX_RETRIES = 3` attempts
for its deployment; with rate-limit failures on attempts 1 and 2 and success
on attempt 3, it returns the third attempt's content after sleeping
`RETRY_DELAY * 1` before the second attempt and `RETRY_DELAY * 2` before the
third; and `summarize_text` then returns that content (stripped, wrapped as
the summary dict). -/
theorem c8_retry_policy :
    (∀ (o : Nat → ApiOutcome) (d : Nat),
        (make_api_call o MAX_RETRIES d).attempts ≤ MAX_RETRIES) ∧
    (∀ (c : String) (d : Nat),
        make_api_call (fun i => if i ≤ 1 then .rateLimit else .success c)
            MAX_RETRIES d = ⟨some c, [d * 1, d * 2], 3⟩) ∧
    (∀ (c : String) (env : String → Option String),
        summarize_text env (s2l "q3 report")
            (fun _ => (make_api_call
              (fun i => if i ≤ 1 then .rateLimit else .success c)
              MAX_RETRIES RETRY_DELAY).result) =
          (some ⟨pyStripStr c⟩, [env "AZURE_OPENAI_DEPLOYMENT_NAME"])) := by
  have hscen : ∀ (c : String) (d : Nat),
      make_api_call (fun i => if i ≤ 1 then .rateLimit else .success c)
        MAX_RETRIES d = ⟨some c, [d * 1, d * 2], 3⟩ := by
    intro c d
    simp [make_api_call, make_api_call_go, MAX_RETRIES]
  refine ⟨?_, hscen, ?_⟩
  · intro o d
    exact make_api_call_go_attempts_le o MAX_RETRIES d MAX_RETRIES 0
  · intro c env
    simp [summarize_text, hscen c RETRY_DELAY]
    exact ⟨by decide, by decide⟩

/-! ## C5 -/

/-- C5 (counterexample): on `c5Web`, a single download attempt starting at
`"http://a"` performs two redirect-following retries before reporting the
non-PDF error item, refuting "at most one redirect-following retry before
the run reports a non-PDF error". -/
theorem c5_counterexample :
    download_run c5Web 10 false "http://a" =
      [.request "http://b/x.pdf", .request "http://c/y.pdf", .item (some false)] ∧
    countRedirects (download_run c5Web 10 false "http://a") = 2 := by
  decide

/-- C5 (amended): each single `save_pdf` invocation on a non-PDF response
follows at most one further `.pdf` anchor (it yields at most one
redirect-following request); the code places no bound on the length of a
chain of such redirects across successive non-PDF responses. -/
theorem c5_one_redirect_per_response (downloaded : Bool) (r : SaveResponse) :
    countRedirects (save_pdf downloaded r).2 ≤ 1 := by
  simp only [save_pdf]
  split
  · simp [countRedirects]
  · split
    · simp [countRedirects, List.countP_cons]
    · split <;> simp [countRedirects, List.countP_cons]

/-! ## C6 -/

theorem select_pdf_url_spec (pl : List String) (u : String)
    (h : select_pdf_url pl = some u) :
    u ∈ pl ∧ ((∃ l ∈ pl, kuwaitLink l = true) → kuwaitLink u = true) := by
  cases pl with
  | nil => simp [select_pdf_url] at h
  | cons first rest =>
    simp only [select_pdf_url] at h
    cases hk : (first :: rest).filter kuwaitLink with
    | nil =>
      rw [hk] at h
      rw [Option.some_inj] at h
      subst h
      refine ⟨List.mem_cons_self _ _, ?_⟩
      rintro ⟨l, hl, hkw⟩
      have : l ∈ (first :: rest).filter kuwaitLink := List.mem_filter.mpr ⟨hl, hkw⟩
      rw [hk] at this
      simp at this
    | cons k rest2 =>
      rw [hk] at h
      rw [Option.some_inj] at h
      have hk2 : k ∈ (first :: rest).filter kuwaitLink := by
        rw [hk]; exact List.mem_cons_self _ _
      have hmf := List.mem_filter.mp hk2
      rw [← h]
      exact ⟨hmf.1, fun _ => hmf.2⟩

/-- C6 (counterexample): with the two non-Kuwait candidates of `c6Response`
collected in the order `["http://x/b.pdf", "http://x/a.pdf"]`, the iteration
order `c6Enum` is a legitimate value of Python's `list(set(...))`
(a permutation of the distinct elements), yet `parse_item` then requests
`"http://x/a.pdf"` — not the first candidate in collection order — so the
"otherwise the selected URL is the first candidate in collection order"
clause fails. -/
theorem c6_counterexample :
    validSetList ((collected_pdf_links c6Response).filter link_keep)
        (c6Enum ((collected_pdf_links c6Response).filter link_keep)) ∧
    (collected_pdf_links c6Response).filter link_keep =
      ["http://x/b.pdf", "http://x/a.pdf"] ∧
    parse_item c6Enum false c6Response =
      [.request "http://x/a.pdf", .item none] ∧
    "http://x/a.pdf" ≠ "http://x/b.pdf" := by
  refine ⟨?_, by decide, by decide, by decide⟩
  simp only [validSetList]
  decide

/-- C6 (amended): `parse_item` deduplicates the collected anchor candidates
and drops empty, fragment-only and whitespace-only hrefs; if any remaining
candidate's href contains "kuwait" case-insensitively then the selected URL
is such a candidate; otherwise the selected URL is some remaining candidate —
the first element of Python's `list(set(...))`, whose iteration order is
unspecified, so not necessarily the first in collection order. -/
theorem c6_selection (r : ItemResponse) (setList : List String → List String)
    (hvalid : validSetList ((collected_pdf_links r).filter link_keep)
      (setList ((collected_pdf_links r).filter link_keep))) :
    (setList ((collected_pdf_links r).filter link_keep)).Nodup ∧
    (∀ l ∈ setList ((collected_pdf_links r).filter link_keep),
        link_keep l = true ∧ l ∈ collected_pdf_links r) ∧
    (∀ u, select_pdf_url (setList ((collected_pdf_links r).filter link_keep)) = some u →
        u ∈ setList ((collected_pdf_links r).filter link_keep) ∧
        ((∃ l ∈ setList ((collected_pdf_links r).filter link_keep),
            kuwaitLink l = true) → kuwaitLink u = true)) := by
  refine ⟨hvalid.symm.nodup (List.nodup_dedup _), ?_, ?_⟩
  · intro l hl
    have : l ∈ ((collected_pdf_links r).filter link_keep).dedup := hvalid.mem_iff.mp hl
    have hmem := List.mem_dedup.mp this
    have := List.mem_filter.mp hmem
    exact ⟨this.2, this.1⟩
  · intro u hu
    exact select_pdf_url_spec _ u hu

/-- C6 witness: the amended statement evaluated on a report page with no
anchors, where the identity-on-distinct-elements enumeration is valid. -/
theorem c6_witness :
    ((fun l => l) ((collected_pdf_links c6EmptyResponse).filter link_keep)).Nodup ∧
    (∀ l ∈ (fun l => l) ((collected_pdf_links c6EmptyResponse).filter link_keep),
        link_keep l = true ∧ l ∈ collected_pdf_links c6EmptyResponse) ∧
    (∀ u, select_pdf_url
          ((fun l => l) ((collected_pdf_links c6EmptyResponse).filter link_keep)) = some u →
        u ∈ (fun l => l) ((collected_pdf_links c6EmptyResponse).filter link_keep) ∧
        ((∃ l ∈ (fun l => l) ((collected_pdf_links c6EmptyResponse).filter link_keep),
            kuwaitLink l = true) → kuwaitLink u = true)) :=
  c6_selection c6EmptyResponse (fun l => l) (by simp only [validSetList]; decide)

/-! ## C9 -/

/-- C9: once the `self.downloaded` flag is set, every subsequent callback
returns without effect: `parse_page`, `parse_item` and `save_pdf` yield no
request, no item and no file write, the flag stays set, and a whole
download chain run under the set flag produces no actions at all. -/
theorem c9_downloaded_flag_stops (setList : List String → List String)
    (pr : PageResponse) (ir : ItemResponse) (sr : SaveResponse)
    (web : String → Option SaveResponse) (fuel : Nat) (u : String) :
    parse_page true pr = [] ∧
    parse_item setList true ir = [] ∧
    save_pdf true sr = (true, []) ∧
    download_run web fuel true u = [] := by
  refine ⟨rfl, rfl, rfl, ?_⟩
  cases fuel with
  | zero => rfl
  | succ n =>
    simp only [download_run]
    cases web u with
    | none => rfl
    | some resp => rfl

/-! ## C10 -/

theorem endsWithL_append (l ext : List Char) : endsWithL (l ++ ext) ext = true := by
  simp only [endsWithL, List.length_append]
  have h : l.length + ext.length - ext.length = l.length := by omega
  rw [h, List.drop_left]
  simp

theorem ensure_pdf_suffix (F : List Char) :
    endsWithL (if endsWithL F pdfExtL then F else F ++ pdfExtL) pdfExtL = true := by
  split
  · assumption
  · exact endsWithL_append _ _

/-- C10: for every URL basename, page title (present or missing) and
timestamp, `generate_filename` returns a name ending in `".pdf"`. -/
theorem c10_generate_filename_pdf (basename : List Char) (hasResponse : Bool)
    (title timestamp : List Char) :
    endsWithL (generate_filename basename hasResponse title timestamp) pdfExtL = true := by
  simp only [generate_filename]
  exact ensure_pdf_suffix _

/-! ## C7 -/

/-- C7: every record the orchestrator returns satisfies the invariant:
`success = true` implies the error field is empty and the summary field is
non-empty, and `success = false` implies the `summary_file` field is absent
and nothing was persisted in that run. -/
theorem c7_result_invariants (findResult : Except String String) (meta : MetaResult)
    (extracted : Option (List Char)) (summarizeResult : Option SummaryDict)
    (saveResult : Except String String) :
    ((run_summarizer findResult meta extracted summarizeResult saveResult).1.success = true →
      (run_summarizer findResult meta extracted summarizeResult saveResult).1.error = none ∧
      (run_summarizer findResult meta extracted summarizeResult saveResult).1.summary.isSome
        = true) ∧
    ((run_summarizer findResult meta extracted summarizeResult saveResult).1.success = false →
      (run_summarizer findResult meta extracted summarizeResult saveResult).1.summary_file
        = none ∧
      (run_summarizer findResult meta extracted summarizeResult saveResult).2 = []) := by
  cases findResult with
  | error e => simp [run_summarizer]
  | ok name =>
    cases meta with
    | errorDict e => simp [run_summarizer, process_pdf]
    | ok pages =>
      cases extracted with
      | none => simp [run_summarizer, process_pdf]
      | some t =>
        by_cases ht : t.isEmpty
        · simp [run_summarizer, process_pdf, ht]
        · cases summarizeResult with
          | none => simp [run_summarizer, process_pdf, ht]
          | some s =>
            cases saveResult with
            | error e => simp [run_summarizer, process_pdf, ht]
            | ok p => simp [run_summarizer, process_pdf, ht]

/-- C7 witness: the invariant's success half evaluated on a fully successful
run. -/
theorem c7_witness :
    (run_summarizer (.ok "r.pdf") (.ok 3) (some (s2l "text")) (some ⟨"S"⟩)
        (.ok "sum.json")).1.error = none ∧
    (run_summarizer (.ok "r.pdf") (.ok 3) (some (s2l "text")) (some ⟨"S"⟩)
        (.ok "sum.json")).1.summary.isSome = true :=
  (c7_result_invariants (.ok "r.pdf") (.ok 3) (some (s2l "text")) (some ⟨"S"⟩)
    (.ok "sum.json")).1 (by decide)

end Crawler
